import Mathlib

/-!
Verification of the eligibility-matching rule engine of the
Government Scheme Finder (`scheme_finder_agents.py`,
`EligibilityMatcherAgent._parse_eligibility_criteria` and
`EligibilityMatcherAgent.process`).

The Python code is shallowly embedded as executable Lean functions:

* Python strings are `String`, examined as their `List Char` data; all
  string helpers used by the engine (`in`, `.lower()`, `.strip()`,
  `.split('-')`, `.replace(...)`, `int(...)`, `re.findall(r'\d+', ...)`)
  are re-implemented below on `List Char` with structural recursion so
  that every concrete instance evaluates inside the kernel.
* The `UserProfile` dataclass is a structure; its `income` field
  (`Optional[float]`, only ever compared with integer caps) is modelled
  as `Option Int`; the two `additional_info` flags consulted by the
  engine (`has_livestock`, `has_children`, each read with
  `.get(key, False)` and used as a truth value) are modelled as `Bool`
  fields.
* A catalog record is a structure of `Option String` / `Option Int`
  fields: `none` models an absent dictionary key, so `dict.get(k, d)`
  becomes `Option.getD` and `dict[k]` becomes a `KeyError` in `Except`.
* The single LLM call made by `_ai_verify_top_schemes` is modelled by an
  oracle parameter `Option (List Int)`: `some ids` is the list of scheme
  ids extracted from the model response, `none` is the
  exception/no-JSON-found path (the `except` branch returns the input
  unchanged).
-/

/-- Python `c.lower()` for one character (ASCII range, as exercised by the
engine's data; non-ASCII characters are left unchanged, matching
`str.lower` on the code's keyword alphabet). -/
def pyCharLower (c : Char) : Char :=
  if 65 ≤ c.toNat ∧ c.toNat ≤ 90 then Char.ofNat (c.toNat + 32) else c

/-- Python `s.lower()`. -/
def pyLower (s : String) : String :=
  String.mk (s.toList.map pyCharLower)

/-- Python `str.isdigit` on the ASCII digits (the only digits appearing in
the catalog texts). -/
def pyIsDigit (c : Char) : Bool :=
  decide (48 ≤ c.toNat ∧ c.toNat ≤ 57)

/-- Whitespace stripped by Python `str.strip()` (the ASCII whitespace
characters). -/
def pyIsSpace (c : Char) : Bool :=
  decide (c.toNat = 32 ∨ c.toNat = 9 ∨ c.toNat = 10 ∨ c.toNat = 13 ∨ c.toNat = 11 ∨ c.toNat = 12)

/-- Python `s.strip()` on the character list. -/
def pyTrim (cs : List Char) : List Char :=
  ((cs.dropWhile pyIsSpace).reverse.dropWhile pyIsSpace).reverse

/-- Does the haystack start with the needle (`List` version)? -/
def listStartsWith : List Char → List Char → Bool
  | [], _ => true
  | _ :: _, [] => false
  | a :: ns, b :: hs => a = b && listStartsWith ns hs

/-- Python `needle in haystack` on strings: the needle occurs as a
contiguous substring. -/
def listContainsSub (needle : List Char) : List Char → Bool
  | [] => listStartsWith needle []
  | c :: rest => listStartsWith needle (c :: rest) || listContainsSub needle rest

/-- Python `sub in s` for strings. -/
def strContains (s sub : String) : Bool :=
  listContainsSub sub.toList s.toList

/-- Python `any(kw in text for kw in kws)`. -/
def anyKw (text : String) (kws : List String) : Bool :=
  kws.any (fun kw => strContains text kw)

/-- Numeric value of a digit string, as read by Python `int` on an
all-digit string. -/
def digitsVal (cs : List Char) : Nat :=
  cs.foldl (fun a c => a * 10 + (c.toNat - 48)) 0

/-- Python `int(s)`: optional surrounding whitespace, optional single
sign, then a non-empty run of digits; anything else raises `ValueError`
(modelled as `none`). -/
def pyInt? (s : String) : Option Int :=
  match pyTrim s.toList with
  | [] => none
  | c :: rest =>
    if c = '-' then
      if rest ≠ [] ∧ rest.all pyIsDigit then some (-(digitsVal rest : Int)) else none
    else if c = '+' then
      if rest ≠ [] ∧ rest.all pyIsDigit then some ((digitsVal rest : Int)) else none
    else if (c :: rest).all pyIsDigit then some ((digitsVal (c :: rest) : Int)) else none

/-- Python `''.join(filter(str.isdigit, s))` as a character list. -/
def digitsOnly (s : String) : List Char :=
  s.toList.filter pyIsDigit

/-- Python `s.split('-')` on the character list (single-character
separator, no maxsplit — exactly `str.split`'s semantics). -/
def splitOnDash : List Char → List (List Char)
  | [] => [[]]
  | c :: rest =>
    if c = '-' then [] :: splitOnDash rest
    else
      match splitOnDash rest with
      | [] => [[c]]
      | h :: t => (c :: h) :: t

/-- Python `s.replace('–', '-')` (the en-dash is a single character, so
the replacement is a character map). -/
def replaceEnDash (s : String) : String :=
  String.mk (s.toList.map (fun c => if c = '–' then '-' else c))

/-- Python `s.replace('+', '')`. -/
def stripPlus (s : String) : String :=
  String.mk (s.toList.filter (fun c => decide (c ≠ '+')))

/-- Maximal runs of digits in a character list, accumulator for
`re.findall(r'\d+', s)`. -/
def digitRunsAux : List Char → List Char → List (List Char)
  | [], acc => if acc.isEmpty then [] else [acc.reverse]
  | c :: cs, acc =>
    if pyIsDigit c then digitRunsAux cs (c :: acc)
    else if acc.isEmpty then digitRunsAux cs []
    else acc.reverse :: digitRunsAux cs []

/-- Python `int(re.findall(r'\d+', s)[-1])`, or `none` when the list of
digit runs is empty (`if numbers:` fails). -/
def lastNumber (s : String) : Option Int :=
  (digitRunsAux s.toList []).getLast?.map (fun run => (digitsVal run : Int))

/-- The `UserProfile` dataclass.  `income` / `land_ownership` are
`Optional[float]` in the source, used only in order comparisons with
integer caps, and are modelled as `Option Int`; the two `additional_info`
flags the engine reads are lifted to `Bool` fields. -/
structure UserProfile where
  age : Int
  income : Option Int
  location_type : String
  occupation : String
  gender : String
  has_bank_account : Bool
  caste_category : Option String
  family_size : Int
  owns_house : Bool
  land_ownership : Option Int
  education_level : String
  has_disability : Bool
  has_livestock : Bool
  has_children : Bool
deriving DecidableEq, Repr

/-- A raw catalog record (a Python dict): `none` models a missing key. -/
structure Scheme where
  scheme_id : Option Int
  scheme_name : Option String
  scheme_type : Option String
  category : Option String
  domain : Option String
  benefits : Option String
  eligibility : Option String
  target_beneficiaries : Option String
  age_limit : Option String
  income_limit : Option String
deriving DecidableEq, Repr

/-- Result dictionary of `_parse_eligibility_criteria`. -/
structure EligibilityCheck where
  eligible : Bool
  reasons : List String
  confidence : Int
deriving DecidableEq, Repr

/-- One entry of the `eligible_schemes` list built by `process`. -/
structure MatchedScheme where
  scheme_id : Int
  scheme_name : String
  scheme_type : String
  category : String
  domain : String
  benefits : String
  confidence : Int
  notes : List String
  eligibility : String
  target_beneficiaries : String
deriving DecidableEq, Repr

/-- Return dictionary of `process`. -/
structure MatchResult where
  total_matched : Nat
  matched_schemes : List MatchedScheme
  user_profile_summary : UserProfile
deriving DecidableEq, Repr

/-- The only exception `process` can raise in the embedded fragment:
a `KeyError` from `scheme[...]` on a missing key. -/
inductive PyError where
  | keyError (key : String)
deriving DecidableEq, Repr

/-- Scheme-side keyword list `farmer_keywords`. -/
def farmer_keywords : List String :=
  ["farmer", "agriculture", "crop", "kisan", "krishi", "fasal", "sinchai",
   "irrigation", "farm", "agricultural", "agri", "cultivation", "pesticide"]

/-- Scheme-side keyword list `student_keywords`. -/
def student_keywords : List String :=
  ["student", "education", "scholarship", "school", "college", "study",
   "vidya", "merit", "academic", "university", "campus", "learning"]

/-- Scheme-side keyword list `business_keywords`. -/
def business_keywords : List String :=
  ["business", "entrepreneur", "mudra", "msme", "startup", "enterprise",
   "vyapar", "udyog", "industry", "commercial", "trade"]

/-- Scheme-side keyword list `worker_keywords`. -/
def worker_keywords : List String :=
  ["worker", "labour", "labor", "shram", "mazdoor", "employee", "wage",
   "construction", "unorganized"]

/-- Scheme-side keyword list `women_keywords`. -/
def women_keywords : List String :=
  ["women", "woman", "mahila", "girl", "daughter", "beti", "female",
   "maternity", "mother", "widow"]

/-- Scheme-side keyword list `child_keywords`. -/
def child_keywords : List String :=
  ["child", "children", "infant", "baby", "newborn", "kid", "balak",
   "bachcha", "minor"]

/-- Scheme-side keyword list `elderly_keywords`. -/
def elderly_keywords : List String :=
  ["pension", "senior", "elderly", "old age", "aged", "vridha",
   "retirement", "retired"]

/-- Scheme-side keyword list `health_keywords` (declared by the source,
never consulted by a gating rule). -/
def health_keywords : List String :=
  ["health", "medical", "hospital", "insurance", "treatment", "arogya",
   "swasthya", "clinic", "doctor"]

/-- Scheme-side keyword list `housing_keywords` (declared by the source,
never consulted by a gating rule). -/
def housing_keywords : List String :=
  ["house", "housing", "awas", "home", "shelter", "construction",
   "building", "residence", "dwelling"]

/-- Scheme-side keyword list `livestock_keywords`. -/
def livestock_keywords : List String :=
  ["livestock", "dairy", "cattle", "gokul", "pashu", "animal husbandry",
   "cow", "buffalo", "goat", "sheep", "poultry"]

/-- Scheme-side keyword list `fishery_keywords`. -/
def fishery_keywords : List String :=
  ["fish", "fishery", "fisheries", "matsya", "aqua", "fisher", "fishing",
   "marine", "aquaculture"]

/-- Scheme-side keyword list `skill_keywords`. -/
def skill_keywords : List String :=
  ["skill", "training", "kaushal", "vocational", "apprentice", "coaching"]

/-- User-side keywords of the farmer gate (`user_is_farmer`). -/
def farmer_user_keywords : List String :=
  ["farmer", "agriculture", "krishi", "kisan", "farm"]

/-- User-side keywords of the student gate (`user_is_student`). -/
def student_user_keywords : List String :=
  ["student", "studying", "school", "college", "education"]

/-- User-side keywords of the business gate (`user_is_business`). -/
def business_user_keywords : List String :=
  ["business", "entrepreneur", "owner", "trader", "self-employed", "vyapari"]

/-- User-side keywords of the worker gate (`user_is_worker`). -/
def worker_user_keywords : List String :=
  ["worker", "labour", "labor", "employee", "mazdoor", "daily wage"]

/-- User-side keywords of the livestock gate (`user_has_livestock`,
combined with `additional_info.get('has_livestock', False)`). -/
def livestock_user_keywords : List String :=
  ["dairy", "livestock", "cattle", "farmer"]

/-- User-side keywords of the fishery gate (`user_is_fisher`). -/
def fishery_user_keywords : List String :=
  ["fisher", "fish", "aqua", "marine"]

/-- The `income_limit` sentinel phrases skipped by the income rule. -/
def income_sentinels : List String :=
  ["No limit", "As per SECC data", "BPL households",
   "Excludes institutional landholders", "BPL / SECC-based"]

/-- The lower-cased search blob `all_scheme_text`:
`f"{scheme_name_lower} {scheme_category} {eligibility_text} {target_beneficiaries} {scheme_type}"`. -/
def allSchemeText (s : Scheme) : String :=
  pyLower (s.scheme_name.getD "") ++ " " ++ pyLower (s.category.getD "") ++ " " ++
    pyLower (s.eligibility.getD "") ++ " " ++ pyLower (s.target_beneficiaries.getD "") ++ " " ++
    pyLower (s.scheme_type.getD "")

/-- The six sequential occupation gates of `_parse_eligibility_criteria`
(the "STRICT OCCUPATION FILTERING" block): the first failing gate
supplies the rejection reason, `none` means all gates passed.  The
skill/training class has no occupation gate in the source. -/
def occupationGate (text user_occ : String) (has_livestock : Bool) : Option String :=
  if anyKw text farmer_keywords ∧ ¬ anyKw user_occ farmer_user_keywords then
    some "Exclusively for farmers"
  else if anyKw text student_keywords ∧ ¬ anyKw user_occ student_user_keywords then
    some "Exclusively for students"
  else if anyKw text business_keywords ∧ ¬ anyKw user_occ business_user_keywords then
    some "Exclusively for business owners"
  else if anyKw text worker_keywords ∧ ¬ anyKw user_occ worker_user_keywords then
    some "Exclusively for workers/laborers"
  else if anyKw text livestock_keywords ∧
      ¬ (anyKw user_occ livestock_user_keywords ∨ has_livestock = true) then
    some "Exclusively for livestock farmers"
  else if anyKw text fishery_keywords ∧ ¬ anyKw user_occ fishery_user_keywords then
    some "Exclusively for fishermen"
  else none

/-- Shape of an `age_limit` text after the parsing performed by the
"STRICT AGE FILTERING" block. -/
inductive AgeSpec where
  | noLimit
  | range (mn mx : Int)
  | minOnly (mn : Int)
  | unparsed
  | noShape
deriving DecidableEq, Repr

/-- Minimum-bound parsing of one part: `'month'` forces 0, `'year'`
keeps the digits, otherwise `int(...)`. -/
def parseAgeBoundMin (s : String) : Option Int :=
  if strContains (pyLower s) "month" then some 0
  else if strContains (pyLower s) "year" then
    if digitsOnly s = [] then none else some ((digitsVal (digitsOnly s) : Int))
  else pyInt? s

/-- Maximum-bound parsing of one part: `'month'` forces 1 ("less than 1
year"), `'year'` keeps the digits, otherwise `int(...)`. -/
def parseAgeBoundMax (s : String) : Option Int :=
  if strContains (pyLower s) "month" then some 1
  else if strContains (pyLower s) "year" then
    if digitsOnly s = [] then none else some ((digitsVal (digitsOnly s) : Int))
  else pyInt? s

/-- The age-limit parser of the "STRICT AGE FILTERING" block.
`unparsed` is the `except (ValueError, IndexError)` path; `noShape` is a
text with neither a dash nor a `'+'`, on which the `try` body falls
through without doing anything. -/
def parseAgeLimit (age_limit : String) : AgeSpec :=
  if age_limit = "No limit" then .noLimit
  else if strContains age_limit "–" || strContains age_limit "-" then
    match splitOnDash (replaceEnDash age_limit).toList with
    | [] => .unparsed
    | p0 :: rest =>
      match parseAgeBoundMin (String.mk (pyTrim p0)) with
      | none => .unparsed
      | some mn =>
        match rest with
        | [] => .range mn 150
        | p1 :: _ =>
          match parseAgeBoundMax (String.mk (pyTrim p1)) with
          | none => .unparsed
          | some mx => .range mn mx
  else if strContains age_limit "+" then
    match parseAgeBoundMin (String.mk (pyTrim (stripPlus age_limit).toList)) with
    | none => .unparsed
    | some mn => .minOnly mn
  else .noShape

/-- Outcome of the age rule: continue, continue with an appended caveat
note, or reject. -/
inductive AgeOutcome where
  | pass
  | note (msg : String)
  | reject (msg : String)
deriving DecidableEq, Repr

/-- The age rule itself, combining the parsed shape with the user's age
exactly as the source's comparisons do. -/
def ageRule (age_limit : String) (user_age : Int) : AgeOutcome :=
  match parseAgeLimit age_limit with
  | .noLimit => .pass
  | .noShape => .pass
  | .unparsed => .note ("Age criteria needs verification: " ++ age_limit)
  | .range mn mx =>
    if mn ≤ user_age ∧ user_age ≤ mx then .pass
    else .reject ("Age must be " ++ age_limit)
  | .minOnly mn =>
    if mn ≤ user_age then .pass else .reject ("Minimum age is " ++ toString mn)

/-- The "STRICT LOCATION FILTERING" block: `some msg` is a rejection.
Note the asymmetry of the source: `is_urban_scheme` additionally demands
that the literal word `'rural'` be absent. -/
def locationGate (text location_type : String) : Option String :=
  if (strContains text "rural" || strContains text "gramin" || strContains text "village")
      && !(strContains text "urban" && !strContains text "rural") then
    if location_type ≠ "rural" then some "Exclusively for rural areas" else none
  else if (strContains text "urban" && !strContains text "rural")
      && !(strContains text "rural" || strContains text "gramin" || strContains text "village") then
    if location_type ≠ "urban" then some "Exclusively for urban areas" else none
  else none

/-- The "STRICT INCOME FILTERING" block: `some msg` is a rejection.
`if user_profile.income:` is Python truthiness, so `none` and `some 0`
both skip the rule. -/
def incomeGate (income_limit : String) (income : Option Int) : Option String :=
  if income_limit ∈ income_sentinels then none
  else
    match income with
    | none => none
    | some v =>
      if v = 0 then none
      else if strContains income_limit "₹" ∧ strContains (pyLower income_limit) "lakh" then
        match lastNumber income_limit with
        | none => none
        | some n =>
          if v > n * 100000 then
            some ("Income exceeds ₹" ++ toString n ++ " lakh limit")
          else none
      else none

/-- Pension / child contextual gates and final confidence scoring (the
tail of `_parse_eligibility_criteria` after the skill block). -/
def finalChecks (text : String) (p : UserProfile) (reasons : List String) : EligibilityCheck :=
  if anyKw text elderly_keywords ∧ p.age < 40 then
    ⟨false, ["Pension schemes are for people 40+"], 0⟩
  else if anyKw text child_keywords ∧ p.age > 10 ∧ ¬ p.has_children = true then
    ⟨false, ["For children or parents with children"], 0⟩
  else
    ⟨true, reasons,
      if reasons.isEmpty then 95 else if reasons.length = 1 then 75 else 60⟩

/-- Gender, location, income, skill and the contextual gates — the part
of `_parse_eligibility_criteria` that runs after the age rule, carrying
the accumulated caveat `reasons`. -/
def restChecks (scheme : Scheme) (p : UserProfile) (text user_occ : String)
    (reasons : List String) : EligibilityCheck :=
  if anyKw text women_keywords ∧ ¬ pyLower p.gender ∈ ["female", "f", "woman"] then
    ⟨false, ["Exclusively for women"], 0⟩
  else
    match locationGate text p.location_type with
    | some msg => ⟨false, [msg], 0⟩
    | none =>
      match incomeGate (scheme.income_limit.getD "No limit") p.income with
      | some msg => ⟨false, [msg], 0⟩
      | none =>
        if anyKw text skill_keywords then
          if p.age > 45 then
            ⟨false, reasons ++ ["Primarily for younger individuals"], 0⟩
          else
            finalChecks text p
              (if strContains user_occ "employed" ∧ ¬ strContains user_occ "unemployed" then
                reasons ++ ["Primarily for unemployed youth"]
              else reasons)
        else finalChecks text p reasons

/-- `EligibilityMatcherAgent._parse_eligibility_criteria`, assembled from
the blocks above in the source's order: occupation gates, age rule (whose
failure to parse appends a note instead of rejecting), then the
remaining gates and scoring. -/
def parseEligibilityCriteria (scheme : Scheme) (p : UserProfile) : EligibilityCheck :=
  match occupationGate (allSchemeText scheme) (pyLower p.occupation) p.has_livestock with
  | some msg => ⟨false, [msg], 0⟩
  | none =>
    match ageRule (scheme.age_limit.getD "No limit") p.age with
    | .reject msg => ⟨false, [msg], 0⟩
    | .pass => restChecks scheme p (allSchemeText scheme) (pyLower p.occupation) []
    | .note msg => restChecks scheme p (allSchemeText scheme) (pyLower p.occupation) [msg]

/-- Building one `eligible_schemes` entry: the source indexes
`scheme['scheme_id']`, `scheme['scheme_name']`, `scheme['scheme_type']`
and `scheme['benefits']` directly (a missing key raises `KeyError`) and
uses `.get` defaults for the rest. -/
def buildEntry (s : Scheme) (chk : EligibilityCheck) : Except PyError MatchedScheme :=
  match s.scheme_id with
  | none => .error (.keyError "scheme_id")
  | some sid =>
    match s.scheme_name with
    | none => .error (.keyError "scheme_name")
    | some nm =>
      match s.scheme_type with
      | none => .error (.keyError "scheme_type")
      | some ty =>
        match s.benefits with
        | none => .error (.keyError "benefits")
        | some bf =>
          .ok ⟨sid, nm, ty, s.category.getD "", s.domain.getD "सामान्य (General)", bf,
               chk.confidence, chk.reasons, s.eligibility.getD "",
               s.target_beneficiaries.getD ""⟩

/-- The first pass of `process`: run the rule engine over the catalog in
order and keep the entries with `eligible and confidence >= 60`. -/
def ruleFilter : List Scheme → UserProfile → Except PyError (List MatchedScheme)
  | [], _ => .ok []
  | s :: rest, p =>
    if (parseEligibilityCriteria s p).eligible = true ∧
        (parseEligibilityCriteria s p).confidence ≥ 60 then
      match buildEntry s (parseEligibilityCriteria s p) with
      | .error e => .error e
      | .ok m =>
        match ruleFilter rest p with
        | .error e => .error e
        | .ok ms => .ok (m :: ms)
    else ruleFilter rest p

/-- Stable insertion step for the descending sort
`eligible_schemes.sort(key=lambda x: x['confidence'], reverse=True)`:
an element is placed after every earlier element of greater-or-equal
confidence. -/
def insertDesc (x : MatchedScheme) : List MatchedScheme → List MatchedScheme
  | [] => [x]
  | y :: ys => if y.confidence > x.confidence then y :: insertDesc x ys else x :: y :: ys

/-- Python's `list.sort(key=..., reverse=True)` is a stable sort by
descending key; any stable descending sort is extensionally the same
list, here realised as insertion sort. -/
def sortDesc : List MatchedScheme → List MatchedScheme
  | [] => []
  | x :: xs => insertDesc x (sortDesc xs)

/-- `min(98, confidence + 5)` boost and `'✓ AI Verified'` note of
`_ai_verify_top_schemes` for an AI-confirmed scheme. -/
def boostScheme (s : MatchedScheme) : MatchedScheme :=
  { s with
    confidence := min 98 (s.confidence + 5),
    notes := if "AI Verified" ∈ s.notes then s.notes else s.notes ++ ["✓ AI Verified"] }

/-- `EligibilityMatcherAgent._ai_verify_top_schemes` with the LLM call
abstracted by `oracle`: `none` is the exception / no-JSON path (return
the input unchanged), `some verified_ids` re-orders the verified schemes
first (boosted) and appends the rest demoted by `max(55, confidence - 10)`. -/
def aiVerifyTopSchemes (oracle : Option (List Int)) (schemes : List MatchedScheme) :
    List MatchedScheme :=
  match oracle with
  | none => schemes
  | some verified_ids =>
    (verified_ids.foldl (fun acc sid =>
        match schemes.find? (fun s => decide (s.scheme_id = sid)) with
        | none => acc
        | some s => acc ++ [boostScheme s]) [])
      ++ ((schemes.filter (fun s => !verified_ids.contains s.scheme_id)).map
            (fun s => { s with confidence := max 55 (s.confidence - 10) }))

/-- `EligibilityMatcherAgent.process`: rule-based filtering, stable
descending sort, and — only when more than 10 schemes survive — the AI
verification pass over the top 25. -/
def process (oracle : Option (List Int)) (cat : List Scheme) (p : UserProfile) :
    Except PyError MatchResult :=
  match ruleFilter cat p with
  | .error e => .error e
  | .ok l =>
    if (sortDesc l).length > 10 then
      .ok ⟨(aiVerifyTopSchemes oracle ((sortDesc l).take 25)).length,
           aiVerifyTopSchemes oracle ((sortDesc l).take 25), p⟩
    else .ok ⟨(sortDesc l).length, sortDesc l, p⟩

deriving instance DecidableEq for Except

/-- A catalog record with every key absent. -/
def emptyScheme : Scheme := ⟨none, none, none, none, none, none, none, none, none, none⟩

/-- A plain profile: 30-year-old male rural resident, empty occupation,
no income on record. -/
def baseProfile : UserProfile :=
  ⟨30, none, "rural", "", "male", true, none, 4, false, none, "", false, false, false⟩

/-- A minimal well-formed record: the four fields `process` indexes
directly are present (and textually empty), everything else absent, so
the record passes every gate with confidence 95. -/
def mkMinimalScheme (i : Int) : Scheme :=
  { emptyScheme with
    scheme_id := some i, scheme_name := some "", scheme_type := some "", benefits := some "" }

/-- The `eligible_schemes` entry `process` builds from `mkMinimalScheme i`. -/
def minimalEntry (i : Int) : MatchedScheme :=
  ⟨i, "", "", "", "सामान्य (General)", "", 95, [], "", ""⟩

/-- A catalog of 26 records that all pass the rule engine. -/
def cat26 : List Scheme := (List.range 26).map (fun i => mkMinimalScheme (i : Int))

/-- A catalog of 11 records that all pass the rule engine (enough to
trigger the AI verification pass). -/
def cat11 : List Scheme := (List.range 11).map (fun i => mkMinimalScheme (i : Int))

/-- A scheme whose search blob contains the skill/training keyword
`'skill'` and no keyword of any other occupation class. -/
def skillScheme : Scheme :=
  { emptyScheme with
    scheme_id := some 1, scheme_name := some "skill", scheme_type := some "",
    benefits := some "" }

/-- A profile whose occupation is `"farmer"` (no skill/training keyword). -/
def farmerOccProfile : UserProfile := { baseProfile with occupation := "farmer" }

/-- A profile whose occupation is `"employed"`. -/
def employedProfile : UserProfile := { baseProfile with occupation := "employed" }

/-- A scheme whose eligibility text mentions both rural and urban areas. -/
def ruralUrbanScheme : Scheme :=
  { emptyScheme with
    scheme_id := some 2, scheme_name := some "", scheme_type := some "",
    benefits := some "", eligibility := some "for rural and urban areas" }

/-- An urban resident. -/
def urbanProfile : UserProfile := { baseProfile with location_type := "urban" }

/-- A scheme whose `age_limit` text (`"adults"`) has neither a dash nor
a `'+'` and so cannot be parsed into any age shape. -/
def adultsScheme : Scheme :=
  { emptyScheme with
    scheme_id := some 3, scheme_name := some "", scheme_type := some "",
    benefits := some "", age_limit := some "adults" }

/-- A record that survives every gate but has no `scheme_id` key. -/
def noIdScheme : Scheme :=
  { emptyScheme with scheme_name := some "", scheme_type := some "", benefits := some "" }

/-- Acceptance by the rule engine at the threshold `process` applies. -/
def acceptedByRules (s : Scheme) (p : UserProfile) : Bool :=
  (parseEligibilityCriteria s p).eligible && decide ((parseEligibilityCriteria s p).confidence ≥ 60)

/-- A scheme whose search blob contains the farmer keyword `'kisan'` and
no keyword of any other occupation class. -/
def farmerScheme : Scheme :=
  { emptyScheme with
    scheme_id := some 4, scheme_name := some "kisan credit", scheme_type := some "",
    benefits := some "" }

/-- Did the call return normally (no exception)? -/
def isOkResult (e : Except PyError MatchResult) : Bool :=
  match e with
  | .ok _ => true
  | .error _ => false

theorem length_insertDesc (x : MatchedScheme) (l : List MatchedScheme) :
    (insertDesc x l).length = l.length + 1 := by
  induction l with
  | nil => rfl
  | cons y ys ih =>
    simp only [insertDesc]
    split
    · simp [ih]
    · simp

theorem perm_insertDesc (x : MatchedScheme) (l : List MatchedScheme) :
    (insertDesc x l).Perm (x :: l) := by
  induction l with
  | nil => exact List.Perm.refl _
  | cons y ys ih =>
    simp only [insertDesc]
    split
    · exact (ih.cons y).trans (List.Perm.swap x y ys)
    · exact List.Perm.refl _

theorem perm_sortDesc (l : List MatchedScheme) : (sortDesc l).Perm l := by
  induction l with
  | nil => exact List.Perm.refl _
  | cons x xs ih => exact (perm_insertDesc x (sortDesc xs)).trans (ih.cons x)

theorem length_sortDesc (l : List MatchedScheme) : (sortDesc l).length = l.length :=
  (perm_sortDesc l).length_eq

theorem pairwise_insertDesc (x : MatchedScheme) (l : List MatchedScheme)
    (h : l.Pairwise (fun a b => b.confidence ≤ a.confidence)) :
    (insertDesc x l).Pairwise (fun a b => b.confidence ≤ a.confidence) := by
  induction l with
  | nil => simp [insertDesc]
  | cons y ys ih =>
    rcases List.pairwise_cons.mp h with ⟨hy, hys⟩
    simp only [insertDesc]
    split
    case isTrue hgt =>
      refine List.pairwise_cons.mpr ⟨?_, ih hys⟩
      intro z hz
      rcases List.mem_cons.mp ((perm_insertDesc x ys).mem_iff.mp hz) with rfl | hz2
      · exact le_of_lt hgt
      · exact hy z hz2
    case isFalse hle =>
      refine List.pairwise_cons.mpr ⟨?_, h⟩
      intro z hz
      rcases List.mem_cons.mp hz with rfl | hz2
      · exact le_of_not_lt hle
      · exact le_trans (hy z hz2) (le_of_not_lt hle)

theorem pairwise_sortDesc (l : List MatchedScheme) :
    (sortDesc l).Pairwise (fun a b => b.confidence ≤ a.confidence) := by
  induction l with
  | nil => simp [sortDesc]
  | cons x xs ih => exact pairwise_insertDesc x (sortDesc xs) ih

theorem filter_insertDesc (c : Int) (x : MatchedScheme) (l : List MatchedScheme) :
    (insertDesc x l).filter (fun m => decide (m.confidence = c)) =
      if x.confidence = c then x :: l.filter (fun m => decide (m.confidence = c))
      else l.filter (fun m => decide (m.confidence = c)) := by
  induction l with
  | nil => by_cases hx : x.confidence = c <;> simp [insertDesc, hx]
  | cons y ys ih =>
    simp only [insertDesc]
    split
    case isTrue hgt =>
      by_cases hx : x.confidence = c
      · have hy : ¬ y.confidence = c := by
          intro he; exact absurd (hx ▸ he ▸ hgt) (lt_irrefl _)
        simp [List.filter_cons, hx, hy, ih]
      · by_cases hy : y.confidence = c <;> simp [List.filter_cons, hx, hy, ih]
    case isFalse hle =>
      by_cases hx : x.confidence = c <;> simp [List.filter_cons, hx]

theorem filter_sortDesc (c : Int) (l : List MatchedScheme) :
    (sortDesc l).filter (fun m => decide (m.confidence = c)) =
      l.filter (fun m => decide (m.confidence = c)) := by
  induction l with
  | nil => rfl
  | cons x xs ih =>
    by_cases hx : x.confidence = c <;>
      simp [sortDesc, filter_insertDesc, hx, ih, List.filter_cons]

theorem buildEntry_confidence {s : Scheme} {chk : EligibilityCheck} {m : MatchedScheme}
    (h : buildEntry s chk = Except.ok m) : m.confidence = chk.confidence := by
  unfold buildEntry at h
  cases hid : s.scheme_id with
  | none => rw [hid] at h; cases h
  | some sid =>
    rw [hid] at h
    cases hnm : s.scheme_name with
    | none => rw [hnm] at h; cases h
    | some nm =>
      rw [hnm] at h
      cases hty : s.scheme_type with
      | none => rw [hty] at h; cases h
      | some ty =>
        rw [hty] at h
        cases hbf : s.benefits with
        | none => rw [hbf] at h; cases h
        | some bf =>
          rw [hbf] at h
          cases h
          rfl

theorem ruleFilter_sound (p : UserProfile) :
    ∀ (cat : List Scheme) (l : List MatchedScheme), ruleFilter cat p = Except.ok l →
      ∀ m ∈ l, ∃ s ∈ cat, (parseEligibilityCriteria s p).eligible = true ∧
        (parseEligibilityCriteria s p).confidence ≥ 60 ∧
        buildEntry s (parseEligibilityCriteria s p) = Except.ok m := by
  intro cat
  induction cat with
  | nil =>
    intro l h m hm
    simp only [ruleFilter] at h
    cases h
    cases hm
  | cons s rest ih =>
    intro l h m hm
    simp only [ruleFilter] at h
    split at h
    case isTrue hacc =>
      cases hb : buildEntry s (parseEligibilityCriteria s p) with
      | error e => rw [hb] at h; cases h
      | ok m0 =>
        rw [hb] at h
        cases hr : ruleFilter rest p with
        | error e => rw [hr] at h; cases h
        | ok ms =>
          rw [hr] at h
          cases h
          rcases List.mem_cons.mp hm with rfl | hm2
          · exact ⟨s, List.mem_cons_self s rest, hacc.1, hacc.2, hb⟩
          · rcases ih ms hr m hm2 with ⟨s2, hs2, h1, h2, h3⟩
            exact ⟨s2, List.mem_cons_of_mem s hs2, h1, h2, h3⟩
    case isFalse hacc =>
      rcases ih l h m hm with ⟨s2, hs2, h1, h2, h3⟩
      exact ⟨s2, List.mem_cons_of_mem s hs2, h1, h2, h3⟩

theorem ruleFilter_complete (p : UserProfile) :
    ∀ (cat : List Scheme) (l : List MatchedScheme), ruleFilter cat p = Except.ok l →
      ∀ s ∈ cat, (parseEligibilityCriteria s p).eligible = true →
        (parseEligibilityCriteria s p).confidence ≥ 60 →
        ∃ m ∈ l, buildEntry s (parseEligibilityCriteria s p) = Except.ok m := by
  intro cat
  induction cat with
  | nil => intro l h s hs; cases hs
  | cons s0 rest ih =>
    intro l h s hs he hc
    simp only [ruleFilter] at h
    split at h
    case isTrue hacc =>
      cases hb : buildEntry s0 (parseEligibilityCriteria s0 p) with
      | error e => rw [hb] at h; cases h
      | ok m0 =>
        rw [hb] at h
        cases hr : ruleFilter rest p with
        | error e => rw [hr] at h; cases h
        | ok ms =>
          rw [hr] at h
          cases h
          rcases List.mem_cons.mp hs with rfl | hs2
          · exact ⟨m0, List.mem_cons_self m0 ms, hb⟩
          · rcases ih ms hr s hs2 he hc with ⟨m, hm, hbm⟩
            exact ⟨m, List.mem_cons_of_mem m0 hm, hbm⟩
    case isFalse hacc =>
      rcases List.mem_cons.mp hs with rfl | hs2
      · exact absurd ⟨he, hc⟩ hacc
      · exact ih l h s hs2 he hc

theorem process_small (oracle : Option (List Int)) (cat : List Scheme) (p : UserProfile)
    (l : List MatchedScheme) (h : ruleFilter cat p = Except.ok l) (hlen : l.length ≤ 10) :
    process oracle cat p = Except.ok ⟨(sortDesc l).length, sortDesc l, p⟩ := by
  unfold process
  rw [h]
  have hl : (sortDesc l).length = l.length := length_sortDesc l
  dsimp only
  rw [if_neg (by omega)]

theorem buildEntry_ok_of_fields {s : Scheme} (chk : EligibilityCheck)
    (h1 : s.scheme_id ≠ none) (h2 : s.scheme_name ≠ none)
    (h3 : s.scheme_type ≠ none) (h4 : s.benefits ≠ none) :
    ∃ m, buildEntry s chk = Except.ok m := by
  unfold buildEntry
  cases hid : s.scheme_id with
  | none => exact absurd hid h1
  | some sid =>
    cases hnm : s.scheme_name with
    | none => exact absurd hnm h2
    | some nm =>
      cases hty : s.scheme_type with
      | none => exact absurd hty h3
      | some ty =>
        cases hbf : s.benefits with
        | none => exact absurd hbf h4
        | some bf => exact ⟨_, rfl⟩

theorem ruleFilter_ok_of_fields (p : UserProfile) :
    ∀ (cat : List Scheme),
      (∀ s ∈ cat, s.scheme_id ≠ none ∧ s.scheme_name ≠ none ∧
        s.scheme_type ≠ none ∧ s.benefits ≠ none) →
      ∃ l, ruleFilter cat p = Except.ok l := by
  intro cat
  induction cat with
  | nil => exact fun _ => ⟨[], rfl⟩
  | cons s rest ih =>
    intro hall
    rcases ih (fun s2 hs2 => hall s2 (List.mem_cons_of_mem s hs2)) with ⟨ms, hms⟩
    rcases hall s (List.mem_cons_self s rest) with ⟨h1, h2, h3, h4⟩
    rcases buildEntry_ok_of_fields (parseEligibilityCriteria s p) h1 h2 h3 h4 with ⟨m0, hm0⟩
    simp only [ruleFilter]
    split
    · rw [hm0, hms]
      exact ⟨m0 :: ms, rfl⟩
    · exact ⟨ms, hms⟩

theorem listStartsWith_mem {n h : List Char} (hsw : listStartsWith n h = true) :
    ∀ c ∈ n, c ∈ h := by
  induction n generalizing h with
  | nil => intro c hc; cases hc
  | cons a ns ih =>
    cases h with
    | nil => simp [listStartsWith] at hsw
    | cons b hs =>
      simp only [listStartsWith, Bool.and_eq_true, decide_eq_true_eq] at hsw
      intro c hc
      rcases List.mem_cons.mp hc with rfl | hc2
      · rw [hsw.1]; exact List.mem_cons_self b hs
      · exact List.mem_cons_of_mem b (ih hsw.2 c hc2)

theorem listContainsSub_mem {n h : List Char} (hc : listContainsSub n h = true) :
    ∀ c ∈ n, c ∈ h := by
  induction h with
  | nil =>
    cases n with
    | nil => intro c hc2; cases hc2
    | cons a ns => simp [listContainsSub, listStartsWith] at hc
  | cons b hs ih =>
    simp only [listContainsSub, Bool.or_eq_true] at hc
    rcases hc with hsw | hrec
    · exact listStartsWith_mem hsw
    · intro c hcn
      exact List.mem_cons_of_mem b (ih hrec c hcn)

theorem listContainsSub_single {c : Char} {h : List Char} :
    listContainsSub [c] h = true ↔ c ∈ h := by
  constructor
  · intro hc
    exact listContainsSub_mem hc c (List.mem_cons_self c [])
  · intro hm
    induction h with
    | nil => cases hm
    | cons b hs ih =>
      simp only [listContainsSub, Bool.or_eq_true]
      rcases List.mem_cons.mp hm with rfl | hm2
      · left; simp [listStartsWith]
      · right; exact ih hm2

theorem contains_false_of_missing (c0 : Char) {n h : List Char}
    (hc0 : c0 ∈ n) (hnot : c0 ∉ h) : listContainsSub n h = false := by
  cases hcs : listContainsSub n h with
  | false => rfl
  | true => exact absurd (listContainsSub_mem hcs c0 hc0) hnot

theorem not_digit_char {c : Char} (hc : pyIsDigit c = true) (d : Char)
    (hd : ¬ (48 ≤ d.toNat ∧ d.toNat ≤ 57)) : c ≠ d := by
  intro he
  subst he
  exact hd (by simpa [pyIsDigit] using hc)

theorem not_mem_digits {l : List Char} (hall : ∀ c ∈ l, pyIsDigit c = true) (d : Char)
    (hd : ¬ (48 ≤ d.toNat ∧ d.toNat ≤ 57)) : d ∉ l := by
  intro hmem
  exact (not_digit_char (hall d hmem) d hd) rfl

theorem dropWhile_eq_self_of_all {p : Char → Bool} {l : List Char}
    (h : ∀ c ∈ l, p c = false) : l.dropWhile p = l := by
  cases l with
  | nil => rfl
  | cons c cs => simp [List.dropWhile, h c (List.mem_cons_self c cs)]

theorem pyTrim_eq_self {l : List Char} (h : ∀ c ∈ l, pyIsSpace c = false) : pyTrim l = l := by
  unfold pyTrim
  rw [dropWhile_eq_self_of_all h]
  rw [dropWhile_eq_self_of_all (fun c hc => h c (List.mem_reverse.mp hc))]
  exact List.reverse_reverse l

theorem digit_not_space {c : Char} (h : pyIsDigit c = true) : pyIsSpace c = false := by
  simp only [pyIsDigit, decide_eq_true_eq] at h
  simp only [pyIsSpace, decide_eq_false_iff_not]
  omega

theorem pyCharLower_digit {c : Char} (h : pyIsDigit c = true) : pyCharLower c = c := by
  simp only [pyIsDigit, decide_eq_true_eq] at h
  unfold pyCharLower
  rw [if_neg (by omega)]

theorem pyLower_digits {l : List Char} (h : ∀ c ∈ l, pyIsDigit c = true) :
    l.map pyCharLower = l := by
  induction l with
  | nil => rfl
  | cons c cs ih =>
    rw [List.map_cons, pyCharLower_digit (h c (List.mem_cons_self c cs)),
      ih (fun d hd => h d (List.mem_cons_of_mem c hd))]

theorem splitOnDash_no_dash {l : List Char} (h : '-' ∉ l) : splitOnDash l = [l] := by
  induction l with
  | nil => rfl
  | cons c cs ih =>
    have hc : ¬ c = '-' := by
      intro he
      exact h (he ▸ List.mem_cons_self c cs)
    have hr := ih (fun hm => h (List.mem_cons_of_mem c hm))
    simp [splitOnDash, hc, hr]

theorem splitOnDash_append {l1 l2 : List Char} (h : '-' ∉ l1) :
    splitOnDash (l1 ++ '-' :: l2) = l1 :: splitOnDash l2 := by
  induction l1 with
  | nil => simp [splitOnDash]
  | cons c cs ih =>
    have hc : ¬ c = '-' := by
      intro he
      exact h (he ▸ List.mem_cons_self c cs)
    have hr := ih (fun hm => h (List.mem_cons_of_mem c hm))
    simp [splitOnDash, hc, hr]

theorem pyInt?_digits {l : List Char} (hne : l ≠ []) (h : ∀ c ∈ l, pyIsDigit c = true) :
    pyInt? (String.mk l) = some ((digitsVal l : Int)) := by
  have htrim : pyTrim (String.mk l).toList = l :=
    pyTrim_eq_self (fun c hc => digit_not_space (h c hc))
  unfold pyInt?
  rw [htrim]
  cases l with
  | nil => exact absurd rfl hne
  | cons c cs =>
    have hc := h c (List.mem_cons_self c cs)
    have hc1 : ¬ c = '-' := not_digit_char hc '-' (by decide)
    have hc2 : ¬ c = '+' := not_digit_char hc '+' (by decide)
    have hall : (c :: cs).all pyIsDigit = true := List.all_eq_true.mpr h
    simp [hc1, hc2, hall]

theorem pyLower_digits_str {l : List Char} (h : ∀ c ∈ l, pyIsDigit c = true) :
    pyLower (String.mk l) = String.mk l := by
  unfold pyLower
  rw [show (String.mk l).toList = l from rfl, pyLower_digits h]

theorem strContains_digits_false {l : List Char} (h : ∀ c ∈ l, pyIsDigit c = true)
    (sub : String) (c0 : Char) (hc0 : c0 ∈ sub.toList)
    (hnd : ¬ (48 ≤ c0.toNat ∧ c0.toNat ≤ 57)) :
    strContains (String.mk l) sub = false := by
  unfold strContains
  rw [show (String.mk l).toList = l from rfl]
  exact contains_false_of_missing c0 hc0 (not_mem_digits h c0 hnd)

theorem parseAgeBoundMin_digits {l : List Char} (hne : l ≠ [])
    (h : ∀ c ∈ l, pyIsDigit c = true) :
    parseAgeBoundMin (String.mk l) = some ((digitsVal l : Int)) := by
  unfold parseAgeBoundMin
  rw [pyLower_digits_str h]
  rw [strContains_digits_false h "month" 'm' (by decide) (by decide)]
  rw [strContains_digits_false h "year" 'y' (by decide) (by decide)]
  simp only [Bool.false_eq_true, if_false]
  exact pyInt?_digits hne h

theorem parseAgeBoundMax_digits {l : List Char} (hne : l ≠ [])
    (h : ∀ c ∈ l, pyIsDigit c = true) :
    parseAgeBoundMax (String.mk l) = some ((digitsVal l : Int)) := by
  unfold parseAgeBoundMax
  rw [pyLower_digits_str h]
  rw [strContains_digits_false h "month" 'm' (by decide) (by decide)]
  rw [strContains_digits_false h "year" 'y' (by decide) (by decide)]
  simp only [Bool.false_eq_true, if_false]
  exact pyInt?_digits hne h

theorem mk_ne_noLimit {l : List Char}
    (hN : ('N' : Char) ∉ l) : String.mk l ≠ "No limit" := by
  intro he
  have hdata : l = "No limit".toList := congrArg String.toList he
  exact hN (by rw [hdata]; decide)

theorem digits_dash_no_N {dmin dmax : List Char}
    (ha : ∀ c ∈ dmin, pyIsDigit c = true) (hb : ∀ c ∈ dmax, pyIsDigit c = true) :
    ('N' : Char) ∉ dmin ++ '-' :: dmax := by
  intro hmem
  rcases List.mem_append.mp hmem with hm | hm
  · exact not_mem_digits ha 'N' (by decide) hm
  · rcases List.mem_cons.mp hm with he | hm2
    · exact absurd he (by decide)
    · exact not_mem_digits hb 'N' (by decide) hm2

theorem replaceEnDash_eq_self {l : List Char} (h : ('–' : Char) ∉ l) :
    replaceEnDash (String.mk l) = String.mk l := by
  unfold replaceEnDash
  rw [show (String.mk l).toList = l from rfl]
  congr 1
  induction l with
  | nil => rfl
  | cons c cs ih =>
    have hc : ¬ c = '–' := by
      intro he
      exact h (he ▸ List.mem_cons_self c cs)
    rw [List.map_cons, if_neg hc, ih (fun hm => h (List.mem_cons_of_mem c hm))]

theorem digits_dash_no_endash {dmin dmax : List Char}
    (ha : ∀ c ∈ dmin, pyIsDigit c = true) (hb : ∀ c ∈ dmax, pyIsDigit c = true) :
    ('–' : Char) ∉ dmin ++ '-' :: dmax := by
  intro hmem
  rcases List.mem_append.mp hmem with hm | hm
  · exact not_mem_digits ha '–' (by decide) hm
  · rcases List.mem_cons.mp hm with he | hm2
    · exact absurd he (by decide)
    · exact not_mem_digits hb '–' (by decide) hm2

theorem parseAgeLimit_digit_range {dmin dmax : List Char}
    (h1 : dmin ≠ []) (h2 : dmax ≠ [])
    (ha : ∀ c ∈ dmin, pyIsDigit c = true) (hb : ∀ c ∈ dmax, pyIsDigit c = true) :
    parseAgeLimit (String.mk (dmin ++ '-' :: dmax)) =
      AgeSpec.range ((digitsVal dmin : Int)) ((digitsVal dmax : Int)) := by
  unfold parseAgeLimit
  rw [if_neg (mk_ne_noLimit (digits_dash_no_N ha hb))]
  have hdash : strContains (String.mk (dmin ++ '-' :: dmax)) "-" = true := by
    unfold strContains
    rw [show (String.mk (dmin ++ '-' :: dmax)).toList = dmin ++ '-' :: dmax from rfl]
    exact listContainsSub_single.mpr (List.mem_append.mpr (Or.inr (List.mem_cons_self _ _)))
  rw [hdash, Bool.or_true, if_pos rfl]
  rw [replaceEnDash_eq_self (digits_dash_no_endash ha hb)]
  rw [show (String.mk (dmin ++ '-' :: dmax)).toList = dmin ++ '-' :: dmax from rfl]
  rw [splitOnDash_append (not_mem_digits ha '-' (by decide))]
  rw [splitOnDash_no_dash (not_mem_digits hb '-' (by decide))]
  dsimp only
  rw [pyTrim_eq_self (fun c hc => digit_not_space (ha c hc))]
  rw [parseAgeBoundMin_digits h1 ha]
  dsimp only
  rw [pyTrim_eq_self (fun c hc => digit_not_space (hb c hc))]
  rw [parseAgeBoundMax_digits h2 hb]

theorem parseAgeLimit_digit_plus {dmin : List Char}
    (h1 : dmin ≠ []) (ha : ∀ c ∈ dmin, pyIsDigit c = true) :
    parseAgeLimit (String.mk (dmin ++ ['+'])) = AgeSpec.minOnly ((digitsVal dmin : Int)) := by
  have hN : ('N' : Char) ∉ dmin ++ ['+'] := by
    intro hmem
    rcases List.mem_append.mp hmem with hm | hm
    · exact not_mem_digits ha 'N' (by decide) hm
    · rcases List.mem_cons.mp hm with he | hm2
      · exact absurd he (by decide)
      · cases hm2
  unfold parseAgeLimit
  rw [if_neg (mk_ne_noLimit hN)]
  have hnodash : ('-' : Char) ∉ dmin ++ ['+'] := by
    intro hmem
    rcases List.mem_append.mp hmem with hm | hm
    · exact not_mem_digits ha '-' (by decide) hm
    · rcases List.mem_cons.mp hm with he | hm2
      · exact absurd he (by decide)
      · cases hm2
  have hnoen : ('–' : Char) ∉ dmin ++ ['+'] := by
    intro hmem
    rcases List.mem_append.mp hmem with hm | hm
    · exact not_mem_digits ha '–' (by decide) hm
    · rcases List.mem_cons.mp hm with he | hm2
      · exact absurd he (by decide)
      · cases hm2
  have hd1 : strContains (String.mk (dmin ++ ['+'])) "–" = false := by
    unfold strContains
    exact contains_false_of_missing '–' (by decide) hnoen
  have hd2 : strContains (String.mk (dmin ++ ['+'])) "-" = false := by
    unfold strContains
    exact contains_false_of_missing '-' (by decide) hnodash
  rw [hd1, hd2, Bool.or_self]
  rw [if_neg (by simp)]
  have hplus : strContains (String.mk (dmin ++ ['+'])) "+" = true := by
    unfold strContains
    exact listContainsSub_single.mpr (List.mem_append.mpr (Or.inr (List.mem_cons_self _ _)))
  rw [hplus, if_pos rfl]
  have hstrip : stripPlus (String.mk (dmin ++ ['+'])) = String.mk dmin := by
    unfold stripPlus
    rw [show (String.mk (dmin ++ ['+'])).toList = dmin ++ ['+'] from rfl]
    congr 1
    rw [List.filter_append]
    rw [List.filter_eq_self.mpr (fun c hc => by
      simp only [decide_eq_true_eq]
      exact not_digit_char (ha c hc) '+' (by decide))]
    simp
  rw [hstrip]
  rw [show (String.mk dmin).toList = dmin from rfl]
  rw [pyTrim_eq_self (fun c hc => digit_not_space (ha c hc))]
  rw [parseAgeBoundMin_digits h1 ha]

theorem map_endash_eq_self {l : List Char} (h : ('–' : Char) ∉ l) :
    l.map (fun c => if c = '–' then '-' else c) = l := by
  induction l with
  | nil => rfl
  | cons c cs ih =>
    have hc : ¬ c = '–' := by
      intro he
      exact h (he ▸ List.mem_cons_self c cs)
    rw [List.map_cons, if_neg hc, ih (fun hm => h (List.mem_cons_of_mem c hm))]

theorem parseAgeBoundMin_month {s : String}
    (h : strContains (pyLower s) "month" = true) : parseAgeBoundMin s = some 0 := by
  unfold parseAgeBoundMin
  rw [h, if_pos rfl]

theorem parseAgeBoundMax_month {s : String}
    (h : strContains (pyLower s) "month" = true) : parseAgeBoundMax s = some 1 := by
  unfold parseAgeBoundMax
  rw [h, if_pos rfl]

theorem parseAgeBoundMin_year {s : String}
    (h1 : strContains (pyLower s) "month" = false)
    (h2 : strContains (pyLower s) "year" = true) (h3 : digitsOnly s ≠ []) :
    parseAgeBoundMin s = some ((digitsVal (digitsOnly s) : Int)) := by
  unfold parseAgeBoundMin
  rw [h1, if_neg (by simp), h2, if_pos rfl, if_neg h3]

theorem parseAgeBoundMax_year {s : String}
    (h1 : strContains (pyLower s) "month" = false)
    (h2 : strContains (pyLower s) "year" = true) (h3 : digitsOnly s ≠ []) :
    parseAgeBoundMax s = some ((digitsVal (digitsOnly s) : Int)) := by
  unfold parseAgeBoundMax
  rw [h1, if_neg (by simp), h2, if_pos rfl, if_neg h3]

theorem parseAgeLimit_sep_general {pmin pmax : List Char} {sep : Char} {mn mx : Int}
    (hsep : sep = '-' ∨ sep = '–')
    (ha1 : ('-' : Char) ∉ pmin) (ha2 : ('–' : Char) ∉ pmin)
    (hb1 : ('-' : Char) ∉ pmax) (hb2 : ('–' : Char) ∉ pmax)
    (hmn : parseAgeBoundMin (String.mk (pyTrim pmin)) = some mn)
    (hmx : parseAgeBoundMax (String.mk (pyTrim pmax)) = some mx) :
    parseAgeLimit (String.mk (pmin ++ sep :: pmax)) = AgeSpec.range mn mx := by
  have hne : String.mk (pmin ++ sep :: pmax) ≠ "No limit" := by
    intro he
    have hdata : pmin ++ sep :: pmax = "No limit".toList := congrArg String.toList he
    have hmem : sep ∈ pmin ++ sep :: pmax :=
      List.mem_append.mpr (Or.inr (List.mem_cons_self _ _))
    rw [hdata] at hmem
    rcases hsep with rfl | rfl
    · exact absurd hmem (by decide)
    · exact absurd hmem (by decide)
  unfold parseAgeLimit
  rw [if_neg hne]
  rcases hsep with rfl | rfl
  · have hdash : strContains (String.mk (pmin ++ '-' :: pmax)) "-" = true := by
      unfold strContains
      exact listContainsSub_single.mpr (List.mem_append.mpr (Or.inr (List.mem_cons_self _ _)))
    rw [hdash, Bool.or_true, if_pos rfl]
    have hrep : replaceEnDash (String.mk (pmin ++ '-' :: pmax)) =
        String.mk (pmin ++ '-' :: pmax) := by
      apply replaceEnDash_eq_self
      intro hmem
      rcases List.mem_append.mp hmem with hm | hm
      · exact ha2 hm
      · rcases List.mem_cons.mp hm with he | hm2
        · exact absurd he (by decide)
        · exact hb2 hm2
    rw [hrep]
    rw [show (String.mk (pmin ++ '-' :: pmax)).toList = pmin ++ '-' :: pmax from rfl]
    rw [splitOnDash_append ha1, splitOnDash_no_dash hb1]
    dsimp only
    rw [hmn]
    dsimp only
    rw [hmx]
  · have hen : strContains (String.mk (pmin ++ '–' :: pmax)) "–" = true := by
      unfold strContains
      exact listContainsSub_single.mpr (List.mem_append.mpr (Or.inr (List.mem_cons_self _ _)))
    rw [hen, Bool.true_or, if_pos rfl]
    have hrep : replaceEnDash (String.mk (pmin ++ '–' :: pmax)) =
        String.mk (pmin ++ '-' :: pmax) := by
      unfold replaceEnDash
      rw [show (String.mk (pmin ++ '–' :: pmax)).toList = pmin ++ '–' :: pmax from rfl]
      congr 1
      rw [List.map_append, map_endash_eq_self ha2, List.map_cons, if_pos rfl,
        map_endash_eq_self hb2]
    rw [hrep]
    rw [show (String.mk (pmin ++ '-' :: pmax)).toList = pmin ++ '-' :: pmax from rfl]
    rw [splitOnDash_append ha1, splitOnDash_no_dash hb1]
    dsimp only
    rw [hmn]
    dsimp only
    rw [hmx]

theorem parseAgeLimit_plus_general {p : List Char} {mn : Int}
    (h1 : ('-' : Char) ∉ p) (h2 : ('–' : Char) ∉ p) (h3 : ('+' : Char) ∉ p)
    (hmn : parseAgeBoundMin (String.mk (pyTrim p)) = some mn) :
    parseAgeLimit (String.mk (p ++ ['+'])) = AgeSpec.minOnly mn := by
  have hne : String.mk (p ++ ['+']) ≠ "No limit" := by
    intro he
    have hdata : p ++ ['+'] = "No limit".toList := congrArg String.toList he
    have hmem : ('+' : Char) ∈ p ++ ['+'] :=
      List.mem_append.mpr (Or.inr (List.mem_cons_self _ _))
    rw [hdata] at hmem
    exact absurd hmem (by decide)
  unfold parseAgeLimit
  rw [if_neg hne]
  have hno1 : strContains (String.mk (p ++ ['+'])) "–" = false := by
    unfold strContains
    apply contains_false_of_missing '–' (by decide)
    intro hmem
    rcases List.mem_append.mp hmem with hm | hm
    · exact h2 hm
    · rcases List.mem_cons.mp hm with he | hm2
      · exact absurd he (by decide)
      · cases hm2
  have hno2 : strContains (String.mk (p ++ ['+'])) "-" = false := by
    unfold strContains
    apply contains_false_of_missing '-' (by decide)
    intro hmem
    rcases List.mem_append.mp hmem with hm | hm
    · exact h1 hm
    · rcases List.mem_cons.mp hm with he | hm2
      · exact absurd he (by decide)
      · cases hm2
  rw [hno1, hno2, Bool.or_self, if_neg (by simp)]
  have hplus : strContains (String.mk (p ++ ['+'])) "+" = true := by
    unfold strContains
    exact listContainsSub_single.mpr (List.mem_append.mpr (Or.inr (List.mem_cons_self _ _)))
  rw [hplus, if_pos rfl]
  have hstrip : stripPlus (String.mk (p ++ ['+'])) = String.mk p := by
    unfold stripPlus
    rw [show (String.mk (p ++ ['+'])).toList = p ++ ['+'] from rfl]
    congr 1
    rw [List.filter_append]
    rw [List.filter_eq_self.mpr (fun c hc => by
      simp only [decide_eq_true_eq]
      intro he
      exact h3 (he ▸ hc))]
    simp
  rw [hstrip]
  rw [show (String.mk p).toList = p from rfl]
  rw [hmn]

theorem ageRule_note_msg {l : String} {a : Int} {m : String}
    (h : ageRule l a = AgeOutcome.note m) :
    m = "Age criteria needs verification: " ++ l := by
  unfold ageRule at h
  split at h
  next => cases h
  next => cases h
  next => cases h; rfl
  next => split at h <;> cases h
  next => split at h <;> cases h

theorem ageRule_pass_of_no_shape {s : String} (h1 : strContains s "–" = false)
    (h2 : strContains s "-" = false) (h3 : strContains s "+" = false) (a : Int) :
    ageRule s a = AgeOutcome.pass := by
  unfold ageRule parseAgeLimit
  by_cases hs : s = "No limit"
  · rw [if_pos hs]
  · rw [if_neg hs, h1, h2, Bool.or_self, if_neg (by simp), h3, if_neg (by simp)]

theorem ageRule_no_reject_of_unparseable {s : String} {a : Int}
    (hr : ∀ mn mx : Int, parseAgeLimit s ≠ AgeSpec.range mn mx)
    (hm : ∀ mn : Int, parseAgeLimit s ≠ AgeSpec.minOnly mn) :
    ∀ msg, ageRule s a ≠ AgeOutcome.reject msg := by
  intro msg h
  unfold ageRule at h
  split at h
  next => cases h
  next => cases h
  next => cases h
  next mn mx heq => exact hr mn mx heq
  next mn heq => exact hm mn heq

theorem occGate_farmer {text occ : String} {hl : Bool}
    (h1 : anyKw text farmer_keywords = true) (h2 : anyKw occ farmer_user_keywords = false) :
    occupationGate text occ hl = some "Exclusively for farmers" := by
  unfold occupationGate
  rw [if_pos ⟨h1, by simp [h2]⟩]

theorem occGate_ne_none_student {text occ : String} {hl : Bool}
    (h1 : anyKw text student_keywords = true) (h2 : anyKw occ student_user_keywords = false) :
    occupationGate text occ hl ≠ none := by
  unfold occupationGate
  split_ifs with c1 c2 c3 c4 c5 c6 <;> simp
  exact c2 ⟨h1, by simp [h2]⟩

theorem occGate_ne_none_business {text occ : String} {hl : Bool}
    (h1 : anyKw text business_keywords = true) (h2 : anyKw occ business_user_keywords = false) :
    occupationGate text occ hl ≠ none := by
  unfold occupationGate
  split_ifs with c1 c2 c3 c4 c5 c6 <;> simp
  exact c3 ⟨h1, by simp [h2]⟩

theorem occGate_ne_none_worker {text occ : String} {hl : Bool}
    (h1 : anyKw text worker_keywords = true) (h2 : anyKw occ worker_user_keywords = false) :
    occupationGate text occ hl ≠ none := by
  unfold occupationGate
  split_ifs with c1 c2 c3 c4 c5 c6 <;> simp
  exact c4 ⟨h1, by simp [h2]⟩

theorem occGate_ne_none_livestock {text occ : String} {hl : Bool}
    (h1 : anyKw text livestock_keywords = true) (h2 : anyKw occ livestock_user_keywords = false)
    (h3 : hl = false) :
    occupationGate text occ hl ≠ none := by
  unfold occupationGate
  split_ifs with c1 c2 c3 c4 c5 c6 <;> simp
  exact c5 ⟨h1, by simp [h2, h3]⟩

theorem occGate_ne_none_fishery {text occ : String} {hl : Bool}
    (h1 : anyKw text fishery_keywords = true) (h2 : anyKw occ fishery_user_keywords = false) :
    occupationGate text occ hl ≠ none := by
  unfold occupationGate
  split_ifs with c1 c2 c3 c4 c5 c6 <;> simp
  exact c6 ⟨h1, by simp [h2]⟩

theorem occGate_none_of_all_pass {text occ : String} {hl : Bool}
    (h1 : ¬ (anyKw text farmer_keywords = true ∧ ¬ anyKw occ farmer_user_keywords = true))
    (h2 : ¬ (anyKw text student_keywords = true ∧ ¬ anyKw occ student_user_keywords = true))
    (h3 : ¬ (anyKw text business_keywords = true ∧ ¬ anyKw occ business_user_keywords = true))
    (h4 : ¬ (anyKw text worker_keywords = true ∧ ¬ anyKw occ worker_user_keywords = true))
    (h5 : ¬ (anyKw text livestock_keywords = true ∧
      ¬ (anyKw occ livestock_user_keywords = true ∨ hl = true)))
    (h6 : ¬ (anyKw text fishery_keywords = true ∧ ¬ anyKw occ fishery_user_keywords = true)) :
    occupationGate text occ hl = none := by
  unfold occupationGate
  rw [if_neg h1, if_neg h2, if_neg h3, if_neg h4, if_neg h5, if_neg h6]

theorem parse_of_occGate_some {s : Scheme} {p : UserProfile} {msg : String}
    (h : occupationGate (allSchemeText s) (pyLower p.occupation) p.has_livestock = some msg) :
    parseEligibilityCriteria s p = ⟨false, [msg], 0⟩ := by
  unfold parseEligibilityCriteria
  rw [h]

theorem parse_occGate_reject {s : Scheme} {p : UserProfile}
    (h : occupationGate (allSchemeText s) (pyLower p.occupation) p.has_livestock ≠ none) :
    (parseEligibilityCriteria s p).eligible = false ∧
      (parseEligibilityCriteria s p).confidence = 0 := by
  rcases Option.ne_none_iff_exists'.mp h with ⟨msg, hmsg⟩
  rw [parse_of_occGate_some hmsg]
  exact ⟨rfl, rfl⟩

theorem finalChecks_survivor {text : String} {p : UserProfile} {rs : List String}
    (h : (finalChecks text p rs).eligible = true) :
    finalChecks text p rs =
      ⟨true, rs, if rs.isEmpty then 95 else if rs.length = 1 then 75 else 60⟩ := by
  unfold finalChecks at h ⊢
  split_ifs at h ⊢ <;> simp_all

theorem restChecks_survivor (s : Scheme) (p : UserProfile) (text occ : String) (rs : List String)
    (h : (restChecks s p text occ rs).eligible = true) :
    ∃ rs2, (rs2 = rs ∨ rs2 = rs ++ ["Primarily for unemployed youth"]) ∧
      restChecks s p text occ rs =
        ⟨true, rs2, if rs2.isEmpty then 95 else if rs2.length = 1 then 75 else 60⟩ := by
  unfold restChecks at h ⊢
  split at h
  next hw => simp at h
  next hw =>
    rw [if_neg hw]
    split at h
    next msg hloc => simp at h
    next hloc =>
      split at h
      next msg hinc => simp at h
      next hinc =>
        split at h
        next hskill =>
          rw [if_pos hskill]
          split at h
          next hage => simp at h
          next hage =>
            rw [if_neg hage]
            by_cases hemp : strContains occ "employed" = true ∧ ¬ strContains occ "unemployed" = true
            · rw [if_pos hemp] at h ⊢
              exact ⟨rs ++ ["Primarily for unemployed youth"], Or.inr rfl, finalChecks_survivor h⟩
            · rw [if_neg hemp] at h ⊢
              exact ⟨rs, Or.inl rfl, finalChecks_survivor h⟩
        next hskill =>
          rw [if_neg hskill]
          exact ⟨rs, Or.inl rfl, finalChecks_survivor h⟩

theorem parse_survivor (s : Scheme) (p : UserProfile)
    (h : (parseEligibilityCriteria s p).eligible = true) :
    ∃ rs2, (rs2 = [] ∨
        rs2 = ["Age criteria needs verification: " ++ s.age_limit.getD "No limit"] ∨
        rs2 = ["Primarily for unemployed youth"] ∨
        rs2 = ["Age criteria needs verification: " ++ s.age_limit.getD "No limit",
               "Primarily for unemployed youth"]) ∧
      parseEligibilityCriteria s p =
        ⟨true, rs2, if rs2.isEmpty then 95 else if rs2.length = 1 then 75 else 60⟩ := by
  unfold parseEligibilityCriteria at h ⊢
  split at h
  next msg hocc => simp at h
  next hocc =>
    split at h
    next msg hage => simp at h
    next hage =>
      rcases restChecks_survivor s p _ _ [] h with ⟨rs2, hrs, heq⟩
      refine ⟨rs2, ?_, heq⟩
      rcases hrs with rfl | rfl
      · exact Or.inl rfl
      · exact Or.inr (Or.inr (Or.inl rfl))
    next msg hage =>
      have hmsg := ageRule_note_msg hage
      subst hmsg
      rcases restChecks_survivor s p _ _ _ h with ⟨rs2, hrs, heq⟩
      refine ⟨rs2, ?_, heq⟩
      rcases hrs with rfl | rfl
      · exact Or.inr (Or.inl rfl)
      · exact Or.inr (Or.inr (Or.inr rfl))

theorem lastNumber_nonneg {s : String} {n : Int} (h : lastNumber s = some n) : 0 ≤ n := by
  unfold lastNumber at h
  rcases Option.map_eq_some'.mp h with ⟨run, hrun, rfl⟩
  exact Int.ofNat_nonneg _

/-- C1 (counterexample): with 26 catalog records all accepted by the rule
engine at confidence 95, `process` hands the sorted list to the AI
verification pass and at most 25 entries come back — the output does not
contain all accepted schemes, refuting the claim as stated. -/
theorem c1_counterexample :
    (process none cat26 baseProfile).map (fun r => r.matched_schemes.length) = Except.ok 25 ∧
    (cat26.filter (fun s => acceptedByRules s baseProfile)).length = 26 := by
  constructor
  · decide
  · decide

/-- C1 (amended): whenever the rule-based pass accepts at most 10 schemes,
the output of `process` is exactly the stable descending sort of the
accepted entries: it is a permutation of the accepted list, sorted by
confidence descending, with the catalog order preserved among entries of
equal confidence (the filtered sub-lists at each confidence value
coincide), sound and complete for rule acceptance at confidence ≥ 60. -/
theorem c1_filter_and_ranking (oracle : Option (List Int)) (cat : List Scheme)
    (p : UserProfile) (l : List MatchedScheme)
    (h : ruleFilter cat p = Except.ok l) (hlen : l.length ≤ 10) :
    process oracle cat p = Except.ok ⟨(sortDesc l).length, sortDesc l, p⟩ ∧
    (sortDesc l).Pairwise (fun a b => b.confidence ≤ a.confidence) ∧
    (∀ c : Int, (sortDesc l).filter (fun m => decide (m.confidence = c)) =
      l.filter (fun m => decide (m.confidence = c))) ∧
    (sortDesc l).Perm l ∧
    (∀ m ∈ sortDesc l, ∃ s ∈ cat, (parseEligibilityCriteria s p).eligible = true ∧
      (parseEligibilityCriteria s p).confidence ≥ 60 ∧
      buildEntry s (parseEligibilityCriteria s p) = Except.ok m ∧
      m.confidence = (parseEligibilityCriteria s p).confidence) ∧
    (∀ s ∈ cat, (parseEligibilityCriteria s p).eligible = true →
      (parseEligibilityCriteria s p).confidence ≥ 60 →
      ∃ m ∈ sortDesc l, buildEntry s (parseEligibilityCriteria s p) = Except.ok m) := by
  refine ⟨process_small oracle cat p l h hlen, pairwise_sortDesc l,
    fun c => filter_sortDesc c l, perm_sortDesc l, ?_, ?_⟩
  · intro m hm
    rcases ruleFilter_sound p cat l h m ((perm_sortDesc l).mem_iff.mp hm) with ⟨s, hs, h1, h2, h3⟩
    exact ⟨s, hs, h1, h2, h3, buildEntry_confidence h3⟩
  · intro s hs he hc
    rcases ruleFilter_complete p cat l h s hs he hc with ⟨m, hm, hb⟩
    exact ⟨m, (perm_sortDesc l).mem_iff.mpr hm, hb⟩

/-- C1 (witness): the amended theorem evaluated on a one-record catalog. -/
theorem c1_witness :
    process none [mkMinimalScheme 0] baseProfile =
      Except.ok ⟨(sortDesc [minimalEntry 0]).length, sortDesc [minimalEntry 0], baseProfile⟩ :=
  (c1_filter_and_ranking none [mkMinimalScheme 0] baseProfile [minimalEntry 0]
    (by decide) (by decide)).1

/-- C2 (counterexample): a scheme whose blob contains the skill/training
keyword `'skill'` (and no other occupation-class keyword) is NOT rejected
for a profile whose occupation (`"farmer"`) has no skill/training
keyword — it is accepted with confidence 95, because the source has no
occupation gate for the skill/training class. -/
theorem c2_counterexample :
    anyKw (allSchemeText skillScheme) skill_keywords = true ∧
    anyKw (allSchemeText skillScheme) farmer_keywords = false ∧
    anyKw (allSchemeText skillScheme) student_keywords = false ∧
    anyKw (allSchemeText skillScheme) business_keywords = false ∧
    anyKw (allSchemeText skillScheme) worker_keywords = false ∧
    anyKw (allSchemeText skillScheme) livestock_keywords = false ∧
    anyKw (allSchemeText skillScheme) fishery_keywords = false ∧
    anyKw (pyLower farmerOccProfile.occupation) skill_keywords = false ∧
    parseEligibilityCriteria skillScheme farmerOccProfile = ⟨true, [], 95⟩ := by
  decide

/-- C2 (amended): for each of the SIX gated occupation classes (farmer,
student, business, worker, livestock, fishery — skill/training has no
occupation gate), a scheme whose blob matches a class keyword and a
profile whose lower-cased occupation (for livestock: together with the
`has_livestock` flag) matches no user-side keyword of that class is
rejected with confidence 0, whatever the rest of the profile says. -/
theorem c2_occupation_gating (s : Scheme) (p : UserProfile) :
    (anyKw (allSchemeText s) farmer_keywords = true →
      anyKw (pyLower p.occupation) farmer_user_keywords = false →
      (parseEligibilityCriteria s p).eligible = false ∧
        (parseEligibilityCriteria s p).confidence = 0) ∧
    (anyKw (allSchemeText s) student_keywords = true →
      anyKw (pyLower p.occupation) student_user_keywords = false →
      (parseEligibilityCriteria s p).eligible = false ∧
        (parseEligibilityCriteria s p).confidence = 0) ∧
    (anyKw (allSchemeText s) business_keywords = true →
      anyKw (pyLower p.occupation) business_user_keywords = false →
      (parseEligibilityCriteria s p).eligible = false ∧
        (parseEligibilityCriteria s p).confidence = 0) ∧
    (anyKw (allSchemeText s) worker_keywords = true →
      anyKw (pyLower p.occupation) worker_user_keywords = false →
      (parseEligibilityCriteria s p).eligible = false ∧
        (parseEligibilityCriteria s p).confidence = 0) ∧
    (anyKw (allSchemeText s) livestock_keywords = true →
      anyKw (pyLower p.occupation) livestock_user_keywords = false →
      p.has_livestock = false →
      (parseEligibilityCriteria s p).eligible = false ∧
        (parseEligibilityCriteria s p).confidence = 0) ∧
    (anyKw (allSchemeText s) fishery_keywords = true →
      anyKw (pyLower p.occupation) fishery_user_keywords = false →
      (parseEligibilityCriteria s p).eligible = false ∧
        (parseEligibilityCriteria s p).confidence = 0) := by
  refine ⟨?_, ?_, ?_, ?_, ?_, ?_⟩
  · intro h1 h2
    rw [parse_of_occGate_some (occGate_farmer h1 h2)]
    exact ⟨rfl, rfl⟩
  · intro h1 h2
    exact parse_occGate_reject (occGate_ne_none_student h1 h2)
  · intro h1 h2
    exact parse_occGate_reject (occGate_ne_none_business h1 h2)
  · intro h1 h2
    exact parse_occGate_reject (occGate_ne_none_worker h1 h2)
  · intro h1 h2 h3
    exact parse_occGate_reject (occGate_ne_none_livestock h1 h2 h3)
  · intro h1 h2
    exact parse_occGate_reject (occGate_ne_none_fishery h1 h2)

/-- C2 (witness): the farmer gate evaluated on a `'kisan'` scheme and an
empty-occupation profile. -/
theorem c2_witness :
    (parseEligibilityCriteria farmerScheme baseProfile).eligible = false ∧
      (parseEligibilityCriteria farmerScheme baseProfile).confidence = 0 :=
  (c2_occupation_gating farmerScheme baseProfile).1 (by decide) (by decide)

/-- C3: age gating as specified.  `"No limit"` never rejects.  For a
range `min-max` with a hyphen OR an en-dash separator, whatever the two
bound texts (digits, month-qualified, year-qualified), the scheme is
rejected exactly outside the resolved inclusive interval; the per-bound
resolution is proved generally: `'month'` forces 0 as a minimum and 1 as
a maximum, `'year'` strips non-digits and parses the integer on either
bound, a plain bound is `int(...)`.  An open-ended `min+` (same bound
parsing) rejects exactly below `min`.  Instances cover both separators
and all qualifier positions (`"6 months-14 years"` → `[0, 14]`,
`"18–35"` → `[18, 35]`, `"0-6 months"` → `[0, 1]`,
`"18 years-60"` → `[18, 60]`, `"60 years+"` → `60+`) and the named
boundary examples for `"18-35"` and `"60+"`. -/
theorem c3_age_gating :
    (∀ a : Int, ageRule "No limit" a = AgeOutcome.pass) ∧
    (∀ (pmin pmax : List Char) (sep : Char) (mn mx a : Int),
      (sep = '-' ∨ sep = '–') →
      ('-' : Char) ∉ pmin → ('–' : Char) ∉ pmin →
      ('-' : Char) ∉ pmax → ('–' : Char) ∉ pmax →
      parseAgeBoundMin (String.mk (pyTrim pmin)) = some mn →
      parseAgeBoundMax (String.mk (pyTrim pmax)) = some mx →
      ageRule (String.mk (pmin ++ sep :: pmax)) a =
        if mn ≤ a ∧ a ≤ mx then AgeOutcome.pass
        else AgeOutcome.reject ("Age must be " ++ String.mk (pmin ++ sep :: pmax))) ∧
    (∀ (p : List Char) (mn a : Int),
      ('-' : Char) ∉ p → ('–' : Char) ∉ p → ('+' : Char) ∉ p →
      parseAgeBoundMin (String.mk (pyTrim p)) = some mn →
      ageRule (String.mk (p ++ ['+'])) a =
        if mn ≤ a then AgeOutcome.pass
        else AgeOutcome.reject ("Minimum age is " ++ toString mn)) ∧
    (∀ s : String, strContains (pyLower s) "month" = true → parseAgeBoundMin s = some 0) ∧
    (∀ s : String, strContains (pyLower s) "month" = true → parseAgeBoundMax s = some 1) ∧
    (∀ s : String, strContains (pyLower s) "month" = false →
      strContains (pyLower s) "year" = true → digitsOnly s ≠ [] →
      parseAgeBoundMin s = some ((digitsVal (digitsOnly s) : Int))) ∧
    (∀ s : String, strContains (pyLower s) "month" = false →
      strContains (pyLower s) "year" = true → digitsOnly s ≠ [] →
      parseAgeBoundMax s = some ((digitsVal (digitsOnly s) : Int))) ∧
    (∀ (dmin dmax : List Char) (a : Int), dmin ≠ [] → dmax ≠ [] →
      (∀ c ∈ dmin, pyIsDigit c = true) → (∀ c ∈ dmax, pyIsDigit c = true) →
      ageRule (String.mk (dmin ++ '-' :: dmax)) a =
        if (digitsVal dmin : Int) ≤ a ∧ a ≤ (digitsVal dmax : Int) then AgeOutcome.pass
        else AgeOutcome.reject ("Age must be " ++ String.mk (dmin ++ '-' :: dmax))) ∧
    (∀ (dmin : List Char) (a : Int), dmin ≠ [] → (∀ c ∈ dmin, pyIsDigit c = true) →
      ageRule (String.mk (dmin ++ ['+'])) a =
        if (digitsVal dmin : Int) ≤ a then AgeOutcome.pass
        else AgeOutcome.reject ("Minimum age is " ++ toString ((digitsVal dmin : Int)))) ∧
    (∀ a : Int, ageRule "6 months-14 years" a =
      if (0 : Int) ≤ a ∧ a ≤ 14 then AgeOutcome.pass
      else AgeOutcome.reject ("Age must be " ++ "6 months-14 years")) ∧
    (∀ a : Int, ageRule "18–35" a =
      if (18 : Int) ≤ a ∧ a ≤ 35 then AgeOutcome.pass
      else AgeOutcome.reject ("Age must be " ++ "18–35")) ∧
    (∀ a : Int, ageRule "0-6 months" a =
      if (0 : Int) ≤ a ∧ a ≤ 1 then AgeOutcome.pass
      else AgeOutcome.reject ("Age must be " ++ "0-6 months")) ∧
    (∀ a : Int, ageRule "18 years-60" a =
      if (18 : Int) ≤ a ∧ a ≤ 60 then AgeOutcome.pass
      else AgeOutcome.reject ("Age must be " ++ "18 years-60")) ∧
    (∀ a : Int, ageRule "60 years+" a =
      if (60 : Int) ≤ a then AgeOutcome.pass
      else AgeOutcome.reject ("Minimum age is " ++ toString (60 : Int))) ∧
    (ageRule "18-35" 17 = AgeOutcome.reject "Age must be 18-35") ∧
    (ageRule "18-35" 18 = AgeOutcome.pass) ∧
    (ageRule "18-35" 35 = AgeOutcome.pass) ∧
    (ageRule "18-35" 36 = AgeOutcome.reject "Age must be 18-35") ∧
    (ageRule "60+" 59 = AgeOutcome.reject "Minimum age is 60") ∧
    (ageRule "60+" 60 = AgeOutcome.pass) := by
  refine ⟨?_, ?_, ?_, ?_, ?_, ?_, ?_, ?_, ?_, ?_, ?_, ?_, ?_, ?_,
    by decide, by decide, by decide, by decide, by decide, by decide⟩
  · intro a
    rfl
  · intro pmin pmax sep mn mx a hsep ha1 ha2 hb1 hb2 hmn hmx
    unfold ageRule
    rw [parseAgeLimit_sep_general hsep ha1 ha2 hb1 hb2 hmn hmx]
  · intro p mn a h1 h2 h3 hmn
    unfold ageRule
    rw [parseAgeLimit_plus_general h1 h2 h3 hmn]
  · intro s h
    exact parseAgeBoundMin_month h
  · intro s h
    exact parseAgeBoundMax_month h
  · intro s h1 h2 h3
    exact parseAgeBoundMin_year h1 h2 h3
  · intro s h1 h2 h3
    exact parseAgeBoundMax_year h1 h2 h3
  · intro dmin dmax a h1 h2 ha hb
    unfold ageRule
    rw [parseAgeLimit_digit_range h1 h2 ha hb]
  · intro dmin a h1 ha
    unfold ageRule
    rw [parseAgeLimit_digit_plus h1 ha]
  · intro a
    have hp : parseAgeLimit "6 months-14 years" = AgeSpec.range 0 14 := by decide
    unfold ageRule
    rw [hp]
  · intro a
    have hp : parseAgeLimit "18–35" = AgeSpec.range 18 35 := by decide
    unfold ageRule
    rw [hp]
  · intro a
    have hp : parseAgeLimit "0-6 months" = AgeSpec.range 0 1 := by decide
    unfold ageRule
    rw [hp]
  · intro a
    have hp : parseAgeLimit "18 years-60" = AgeSpec.range 18 60 := by decide
    unfold ageRule
    rw [hp]
  · intro a
    have hp : parseAgeLimit "60 years+" = AgeSpec.minOnly 60 := by decide
    unfold ageRule
    rw [hp]

/-- C3 (witness): the general range clause evaluated with the en-dash
separator at `"18–35"` and age 17. -/
theorem c3_witness :
    ageRule (String.mk (['1', '8'] ++ '–' :: ['3', '5'])) 17 =
      (if (18 : Int) ≤ 17 ∧ (17 : Int) ≤ 35 then AgeOutcome.pass
       else AgeOutcome.reject ("Age must be " ++ String.mk (['1', '8'] ++ '–' :: ['3', '5']))) :=
  c3_age_gating.2.1 ['1', '8'] ['3', '5'] '–' 18 35 17 (Or.inr rfl)
    (by decide) (by decide) (by decide) (by decide) (by decide) (by decide)

/-- C4 (counterexample): a scheme whose blob contains BOTH `'rural'` and
`'urban'` is treated as rural-only by the source (because
`is_urban_scheme` demands the absence of `'rural'`), so an urban profile
IS rejected on location — refuting the claim that such schemes reject no
profile. -/
theorem c4_counterexample :
    strContains (allSchemeText ruralUrbanScheme) "rural" = true ∧
    strContains (allSchemeText ruralUrbanScheme) "urban" = true ∧
    parseEligibilityCriteria ruralUrbanScheme urbanProfile =
      ⟨false, ["Exclusively for rural areas"], 0⟩ := by
  decide

/-- C4 (amended): the location rule rejects exactly when either the blob
has a rural/village keyword and (contains `'rural'` or has no `'urban'`)
while the profile is not rural, or the blob has `'urban'` and none of
the rural keywords while the profile is not urban.  In particular a blob
containing both `'rural'` and `'urban'` is rural-only, not unrestricted. -/
theorem c4_location_gating (text loc : String) :
    locationGate text loc ≠ none ↔
      (((strContains text "rural" = true ∨ strContains text "gramin" = true ∨
          strContains text "village" = true) ∧
        (strContains text "rural" = true ∨ strContains text "urban" = false) ∧
        loc ≠ "rural") ∨
       (strContains text "urban" = true ∧ strContains text "rural" = false ∧
        strContains text "gramin" = false ∧ strContains text "village" = false ∧
        loc ≠ "urban")) := by
  cases hr : strContains text "rural" <;> cases hg : strContains text "gramin" <;>
    cases hv : strContains text "village" <;> cases hu : strContains text "urban" <;>
    simp only [locationGate, hr, hg, hv, hu] <;> split_ifs <;> simp_all

/-- C5: income gating as specified.  The rule is skipped for sentinel
limits and unset income; any limit text without both `'₹'` and `'lakh'`
never rejects; when it applies, the last embedded integer `n` caps income
at `n * 100000` and rejection happens exactly when income strictly
exceeds the cap; `"₹2 lakh"` rejects 250000 and accepts 150000. -/
theorem c5_income_gating :
    (∀ (limit : String) (inc : Option Int), limit ∈ income_sentinels →
      incomeGate limit inc = none) ∧
    (∀ limit : String, incomeGate limit none = none) ∧
    (∀ (limit : String) (inc : Option Int),
      (strContains limit "₹" = false ∨ strContains (pyLower limit) "lakh" = false) →
      incomeGate limit inc = none) ∧
    (∀ (limit : String) (v n : Int), limit ∉ income_sentinels →
      strContains limit "₹" = true → strContains (pyLower limit) "lakh" = true →
      lastNumber limit = some n →
      (incomeGate limit (some v) ≠ none ↔ v > n * 100000)) ∧
    (incomeGate "₹2 lakh" (some 250000) = some "Income exceeds ₹2 lakh limit") ∧
    (incomeGate "₹2 lakh" (some 150000) = none) := by
  refine ⟨?_, ?_, ?_, ?_, by decide, by decide⟩
  · intro limit inc h
    unfold incomeGate
    rw [if_pos h]
  · intro limit
    by_cases hs : limit ∈ income_sentinels <;> simp [incomeGate, hs]
  · intro limit inc h
    unfold incomeGate
    by_cases hs : limit ∈ income_sentinels
    · rw [if_pos hs]
    · rw [if_neg hs]
      cases inc with
      | none => rfl
      | some v =>
        dsimp only
        by_cases hv : v = 0
        · rw [if_pos hv]
        · rw [if_neg hv, if_neg (by
            rintro ⟨ha, hb⟩
            rcases h with h | h
            · rw [h] at ha; cases ha
            · rw [h] at hb; cases hb)]
  · intro limit v n hs h1 h2 hn
    unfold incomeGate
    rw [if_neg hs]
    dsimp only
    by_cases hv : v = 0
    · rw [if_pos hv]
      subst hv
      constructor
      · intro hne
        exact absurd rfl hne
      · intro hgt
        exfalso
        have hnn := lastNumber_nonneg hn
        nlinarith
    · rw [if_neg hv, if_pos ⟨h1, h2⟩, hn]
      dsimp only
      split_ifs with hgt <;> simp [hgt]

/-- C5 (witness): the applicable clause evaluated at `"₹2 lakh"` and
income 250000. -/
theorem c5_witness :
    incomeGate "₹2 lakh" (some 250000) ≠ none ↔ (250000 : Int) > 2 * 100000 :=
  c5_income_gating.2.2.2.1 "₹2 lakh" 250000 2 (by decide) (by decide) (by decide) (by decide)

/-- C6 (counterexample): a surviving skill scheme with an `"employed"`
occupation carries the note `"Primarily for unemployed youth"` (and
confidence 75) — so the fail-open age-parse note is NOT the only note a
surviving scheme can carry, refuting the claim's second half. -/
theorem c6_counterexample :
    parseEligibilityCriteria skillScheme employedProfile =
      ⟨true, ["Primarily for unemployed youth"], 75⟩ := by
  decide

/-- C6 (amended): for every surviving scheme the confidence is 95 with no
notes, 75 with exactly one and 60 with more, and the accumulated notes
are among TWO sources: the fail-open age-parse note and the
skill-scheme `"Primarily for unemployed youth"` caveat (in that order). -/
theorem c6_confidence_scoring (s : Scheme) (p : UserProfile)
    (h : (parseEligibilityCriteria s p).eligible = true) :
    ((parseEligibilityCriteria s p).confidence =
      if (parseEligibilityCriteria s p).reasons.isEmpty then 95
      else if (parseEligibilityCriteria s p).reasons.length = 1 then 75 else 60) ∧
    ((parseEligibilityCriteria s p).reasons = [] ∨
     (parseEligibilityCriteria s p).reasons =
        ["Age criteria needs verification: " ++ s.age_limit.getD "No limit"] ∨
     (parseEligibilityCriteria s p).reasons = ["Primarily for unemployed youth"] ∨
     (parseEligibilityCriteria s p).reasons =
        ["Age criteria needs verification: " ++ s.age_limit.getD "No limit",
         "Primarily for unemployed youth"]) := by
  rcases parse_survivor s p h with ⟨rs2, hshape, heq⟩
  rw [heq]
  exact ⟨rfl, hshape⟩

/-- C6 (witness): the scoring clause evaluated on the surviving skill
scheme of the counterexample. -/
theorem c6_witness :
    (parseEligibilityCriteria skillScheme employedProfile).confidence =
      (if (parseEligibilityCriteria skillScheme employedProfile).reasons.isEmpty then 95
       else if (parseEligibilityCriteria skillScheme employedProfile).reasons.length = 1 then 75
       else 60) :=
  (c6_confidence_scoring skillScheme employedProfile (by decide)).1

/-- C7 (counterexample): the age text `"adults"` (no dash, no `'+'`) is
not `"No limit"` and cannot be parsed, yet the engine appends NO
verification note — the scheme survives with empty notes and confidence
95, refuting the claim that a note is appended for every unparseable
text. -/
theorem c7_counterexample :
    (adultsScheme.age_limit.getD "No limit") ≠ "No limit" ∧
    ageRule "adults" 30 = AgeOutcome.pass ∧
    parseEligibilityCriteria adultsScheme baseProfile = ⟨true, [], 95⟩ := by
  decide

/-- C7 (amended): the age rule never rejects an unparseable text — but
the `"needs verification"` note is appended only when the text contains a
dash or `'+'` and its bound parsing fails (e.g. `"18-abc"`); a text with
neither separator silently passes with NO note; when the note is
produced, the engine continues with the remaining rules carrying it. -/
theorem c7_fail_open :
    (∀ (s : String) (a : Int), strContains s "–" = false → strContains s "-" = false →
      strContains s "+" = false → ageRule s a = AgeOutcome.pass) ∧
    (∀ (s : String) (a : Int),
      (∀ mn mx : Int, parseAgeLimit s ≠ AgeSpec.range mn mx) →
      (∀ mn : Int, parseAgeLimit s ≠ AgeSpec.minOnly mn) →
      ∀ msg, ageRule s a ≠ AgeOutcome.reject msg) ∧
    (∀ a : Int, ageRule "18-abc" a =
      AgeOutcome.note ("Age criteria needs verification: " ++ "18-abc")) ∧
    (∀ (s : Scheme) (p : UserProfile) (msg : String),
      occupationGate (allSchemeText s) (pyLower p.occupation) p.has_livestock = none →
      ageRule (s.age_limit.getD "No limit") p.age = AgeOutcome.note msg →
      parseEligibilityCriteria s p =
        restChecks s p (allSchemeText s) (pyLower p.occupation) [msg]) := by
  refine ⟨?_, ?_, ?_, ?_⟩
  · intro s a h1 h2 h3
    exact ageRule_pass_of_no_shape h1 h2 h3 a
  · intro s a hr hm
    exact ageRule_no_reject_of_unparseable hr hm
  · intro a
    have hp : parseAgeLimit "18-abc" = AgeSpec.unparsed := by decide
    unfold ageRule
    rw [hp]
  · intro s p msg h1 h2
    unfold parseEligibilityCriteria
    rw [h1, h2]

/-- C7 (witness): the no-separator clause evaluated at `"adults"`. -/
theorem c7_witness : ageRule "adults" 30 = AgeOutcome.pass :=
  c7_fail_open.1 "adults" 30 (by decide) (by decide) (by decide)

/-- C8 (counterexample): a record that survives every gate but lacks the
`scheme_id` key makes `process` raise `KeyError` — the call aborts, no
per-scheme recovery exists, refuting the claim that `match` never
raises on malformed records. -/
theorem c8_counterexample :
    (parseEligibilityCriteria noIdScheme baseProfile).eligible = true ∧
    process none [noIdScheme] baseProfile = Except.error (PyError.keyError "scheme_id") := by
  decide

/-- C8 (amended): the gating fields are read with `.get` defaults, so a
record whose `age_limit` / `eligibility` / `income_limit` keys are
missing is gated exactly like one carrying the default text, and the
whole call returns normally provided every record carries the four
directly-indexed keys (`scheme_id`, `scheme_name`, `scheme_type`,
`benefits`); a surviving record missing one of those four raises
`KeyError` out of `process` and aborts the call. -/
theorem c8_error_handling :
    (∀ (oracle : Option (List Int)) (cat : List Scheme) (p : UserProfile),
      (∀ s ∈ cat, s.scheme_id ≠ none ∧ s.scheme_name ≠ none ∧ s.scheme_type ≠ none ∧
        s.benefits ≠ none) →
      isOkResult (process oracle cat p) = true) ∧
    (∀ (s : Scheme) (p : UserProfile), s.age_limit = none →
      parseEligibilityCriteria s p =
        parseEligibilityCriteria { s with age_limit := some "No limit" } p) ∧
    (∀ (s : Scheme) (p : UserProfile), s.eligibility = none →
      parseEligibilityCriteria s p =
        parseEligibilityCriteria { s with eligibility := some "" } p) ∧
    (∀ (s : Scheme) (p : UserProfile), s.income_limit = none →
      parseEligibilityCriteria s p =
        parseEligibilityCriteria { s with income_limit := some "No limit" } p) := by
  refine ⟨?_, ?_, ?_, ?_⟩
  · intro oracle cat p hall
    rcases ruleFilter_ok_of_fields p cat hall with ⟨l, hl⟩
    unfold process
    rw [hl]
    dsimp only
    split <;> rfl
  · intro s p h
    obtain ⟨f1, f2, f3, f4, f5, f6, f7, f8, f9, f10⟩ := s
    cases h
    rfl
  · intro s p h
    obtain ⟨f1, f2, f3, f4, f5, f6, f7, f8, f9, f10⟩ := s
    cases h
    rfl
  · intro s p h
    obtain ⟨f1, f2, f3, f4, f5, f6, f7, f8, f9, f10⟩ := s
    cases h
    rfl

/-- C8 (witness): the no-exception clause evaluated on a well-formed
one-record catalog. -/
theorem c8_witness : isOkResult (process none [mkMinimalScheme 0] baseProfile) = true :=
  c8_error_handling.1 none [mkMinimalScheme 0] baseProfile (by decide)

/-- C9 (counterexample): on a catalog where 11 schemes pass the rules,
`process` consults the AI verifier, and two runs on the SAME profile and
catalog differ when the model responds differently — the output is not a
function of (profile, catalog) alone, refuting purity/determinism for
inputs with more than 10 eligible schemes. -/
theorem c9_counterexample :
    process (some [10]) cat11 baseProfile ≠ process none cat11 baseProfile := by
  decide

/-- C9 (amended): whenever the rule-based pass accepts at most 10
schemes, the AI verifier is never invoked and `process` is a pure
function of (profile, catalog): its value is independent of the model
response. -/
theorem c9_purity_small (o1 o2 : Option (List Int)) (cat : List Scheme) (p : UserProfile)
    (l : List MatchedScheme) (h : ruleFilter cat p = Except.ok l) (hlen : l.length ≤ 10) :
    process o1 cat p = process o2 cat p := by
  rw [process_small o1 cat p l h hlen, process_small o2 cat p l h hlen]

/-- C9 (witness): oracle-independence evaluated on a one-record catalog. -/
theorem c9_witness :
    process (some [3]) [mkMinimalScheme 0] baseProfile =
      process none [mkMinimalScheme 0] baseProfile :=
  c9_purity_small (some [3]) none [mkMinimalScheme 0] baseProfile [minimalEntry 0]
    (by decide) (by decide)

/-- C10: an income of 0 is falsy in `if user_profile.income:`, so it is
treated exactly like an unset income — the income rule is skipped — and
income rejection requires an income strictly above 0 and strictly above
the `n * 100000` cap extracted from the limit text; a limit with no
embedded integer never rejects. -/
theorem c10_zero_income :
    (∀ limit : String, incomeGate limit (some 0) = none) ∧
    (∀ limit : String, incomeGate limit (some 0) = incomeGate limit none) ∧
    (∀ (limit : String) (v n : Int), lastNumber limit = some n →
      incomeGate limit (some v) ≠ none → 0 < v ∧ v > n * 100000) ∧
    (∀ (limit : String) (v : Int), lastNumber limit = none →
      incomeGate limit (some v) = none) := by
  refine ⟨?_, ?_, ?_, ?_⟩
  · intro limit
    by_cases hs : limit ∈ income_sentinels <;> simp [incomeGate, hs]
  · intro limit
    by_cases hs : limit ∈ income_sentinels <;> simp [incomeGate, hs]
  · intro limit v n hn hne
    unfold incomeGate at hne
    by_cases hs : limit ∈ income_sentinels
    · rw [if_pos hs] at hne
      exact absurd rfl hne
    · rw [if_neg hs] at hne
      dsimp only at hne
      by_cases hv : v = 0
      · rw [if_pos hv] at hne
        exact absurd rfl hne
      · rw [if_neg hv] at hne
        by_cases hm : strContains limit "₹" = true ∧ strContains (pyLower limit) "lakh" = true
        · rw [if_pos hm, hn] at hne
          dsimp only at hne
          by_cases hgt : v > n * 100000
          · have hnn := lastNumber_nonneg hn
            refine ⟨?_, hgt⟩
            nlinarith
          · rw [if_neg hgt] at hne
            exact absurd rfl hne
        · rw [if_neg hm] at hne
          exact absurd rfl hne
  · intro limit v hn
    unfold incomeGate
    by_cases hs : limit ∈ income_sentinels
    · rw [if_pos hs]
    · rw [if_neg hs]
      dsimp only
      by_cases hv : v = 0
      · rw [if_pos hv]
      · rw [if_neg hv]
        by_cases hm : strContains limit "₹" = true ∧ strContains (pyLower limit) "lakh" = true
        · rw [if_pos hm, hn]
        · rw [if_neg hm]

/-- C10 (witness): the rejection-requires clause evaluated at `"₹2 lakh"`
and income 250000. -/
theorem c10_witness :
    0 < (250000 : Int) ∧ (250000 : Int) > 2 * 100000 :=
  c10_zero_income.2.2.1 "₹2 lakh" 250000 2 (by decide) (by decide)
